import Mathlib

/-
Shallow embedding of the openebdmini firmware control core
(src/openebdmini.c and src/state.c).

Machine integers are modelled as Nat with explicit reductions modulo
2^16 (uint16_t stores) and modulo 2^32 (uint32_t arithmetic) at the
points where the C code can wrap.  The hardware side effects
(setloadduty, turnonfan/turnofffan, uart output) are modelled as fields
of the state record / as the produced character list.
-/

/- operationmode, src/openebdmini.c lines 132-137 (same enum in state.h,
used by src/state.c). -/
inductive operationmode where
  | OPMODE_OFF
  | OPMODE_SET
  | OPMODE_ON
  | OPMODE_LVC
deriving DecidableEq

/- state_changeopmode, src/state.c lines 17-40, as a pure function from
the current mode and the requested mode to (return value, new mode). -/
def state_changeopmode (om : operationmode) (newmode : operationmode) :
    Bool × operationmode :=
  let changeok : Bool :=
    match om with
    | .OPMODE_ON => decide (newmode = .OPMODE_OFF)
    | .OPMODE_OFF => decide (newmode = .OPMODE_ON)
    | .OPMODE_LVC => decide (newmode = .OPMODE_OFF)
    | .OPMODE_SET => false
  (changeok, if changeok then newmode else om)

/- The mutable globals of src/openebdmini.c (lines 143-157, 308-314)
that the control loop reads or writes, plus the fan output pin
(PB_ODR bit 2) as a Bool. -/
structure MState where
  om : operationmode
  dm : Nat
  highgain : Bool
  lvc : Nat
  targetamps : Nat
  volts : Nat
  amps : Nat
  amphours : Nat
  watts : Nat
  loadduty : Nat
  shuntsamples : Fin 12 → Nat
  voltsamples : Fin 12 → Nat
  volthighgainsamples : Fin 12 → Nat
  sample : Fin 12
  fan : Bool

/- Sum of the 12 slots of a sample window: the for loop at
src/openebdmini.c lines 329-333, one channel. -/
def sumSamples (w : Fin 12 → Nat) : Nat :=
  w 0 + w 1 + w 2 + w 3 + w 4 + w 5 + w 6 + w 7 + w 8 + w 9 + w 10 + w 11

/- samples[sample] = readadc(...): a uint16_t store into the window
(src/openebdmini.c lines 324-326). -/
def updatedWindow (w : Fin 12 → Nat) (p : Fin 12) (raw : Nat) : Fin 12 → Nat :=
  Function.update w p (raw % 65536)

/- One sampler step for one channel: overwrite the slot at the cursor,
advance the cursor modulo 12 (src/openebdmini.c lines 324-328).
Fin 12 addition is addition modulo 12. -/
def samplerStep (w : Fin 12 → Nat) (p : Fin 12) (raw : Nat) :
    (Fin 12 → Nat) × Fin 12 :=
  (updatedWindow w p raw, p + 1)

/- Feeding the same raw code c to a channel n consecutive iterations. -/
def feedConst (c : Nat) (s : (Fin 12 → Nat) × Fin 12) : Nat → (Fin 12 → Nat) × Fin 12
  | 0 => s
  | n + 1 => samplerStep (feedConst c s n).1 (feedConst c s n).2 c

/- amps = ((shuntsum / SAMPLES) * MICROVOLTSPERSTEP_SHUNT) / 20, stored
into uint16_t amps (src/openebdmini.c line 335). -/
def ampsOf (m : Nat) : Nat := m * 68 / 20 % 65536

/- highgainvolts = (((volthighgainsum / SAMPLES) * 65) / 10) - 20:
uint32_t arithmetic (the subtraction wraps modulo 2^32 when the
quotient is below 20), then stored into uint16_t
(src/openebdmini.c lines 336-337). -/
def highGainVoltsOf (m : Nat) : Nat :=
  (m * 65 / 10 + (4294967296 - 20)) % 4294967296 % 65536

/- lowgainvolts = (voltsum / SAMPLES) * MILLIVOLTSPERSTEP, stored into
uint16_t (src/openebdmini.c line 338). -/
def lowgainvoltsOf (m : Nat) : Nat := m * 20 % 65536

/- Gain selection for the reported volts (src/openebdmini.c lines
339-343): the selector is the low-gain value. -/
def voltsSelect (lowgainvolts highgainvolts : Nat) : Nat :=
  if lowgainvolts ≤ 6000 then highgainvolts else lowgainvolts

/- wattstemp = ((uint32_t) amps * (uint32_t) volts) / 1000 and the
narrowing store watts = (uint16_t) wattstemp (src/openebdmini.c lines
345-346).  Both operands are uint16_t values, so the uint32_t product
cannot wrap. -/
def wattsOf (amps volts : Nat) : Nat := amps * volts / 1000 % 65536

/- Fan control: on iff watts > FANWATTTHRESHOLD = 2500
(src/openebdmini.c lines 45, 348-351). -/
def fanCommand (watts : Nat) : Bool := decide (2500 < watts)

/- The bang-bang duty adjustment performed while in OPMODE_ON with
volts >= lvc (src/openebdmini.c lines 359-369). -/
def regulatorAdjust (amps targetamps loadduty : Nat) : Nat :=
  if amps < targetamps then
    if 300 < loadduty then loadduty - 1 else loadduty
  else if targetamps < amps then
    if loadduty < 1000 then loadduty + 1 else loadduty
  else loadduty

/- Smoothed readings after storing the raw codes of this iteration
(src/openebdmini.c lines 324-333): truncating mean of the 12 slots. -/
def shuntMeanAfter (st : MState) (shuntRaw : Nat) : Nat :=
  sumSamples (updatedWindow st.shuntsamples st.sample shuntRaw) / 12

def voltMeanAfter (st : MState) (vinRaw : Nat) : Nat :=
  sumSamples (updatedWindow st.voltsamples st.sample vinRaw) / 12

def highMeanAfter (st : MState) (highRaw : Nat) : Nat :=
  sumSamples (updatedWindow st.volthighgainsamples st.sample highRaw) / 12

def ampsAfter (st : MState) (shuntRaw : Nat) : Nat :=
  ampsOf (shuntMeanAfter st shuntRaw)

def lowgainvoltsAfter (st : MState) (vinRaw : Nat) : Nat :=
  lowgainvoltsOf (voltMeanAfter st vinRaw)

def highgainvoltsAfter (st : MState) (highRaw : Nat) : Nat :=
  highGainVoltsOf (highMeanAfter st highRaw)

def highgainAfter (st : MState) (vinRaw : Nat) : Bool :=
  decide (lowgainvoltsAfter st vinRaw ≤ 6000)

def voltsAfter (st : MState) (vinRaw highRaw : Nat) : Nat :=
  voltsSelect (lowgainvoltsAfter st vinRaw) (highgainvoltsAfter st highRaw)

def wattsAfter (st : MState) (shuntRaw vinRaw highRaw : Nat) : Nat :=
  wattsOf (ampsAfter st shuntRaw) (voltsAfter st vinRaw highRaw)

/- The measurement part of checkstate (src/openebdmini.c lines 324-351):
store the three raw codes, advance the shared cursor, recompute amps,
highgain, volts, watts and the fan output. -/
def measuredState (st : MState) (shuntRaw vinRaw highRaw : Nat) : MState :=
  { st with
    shuntsamples := updatedWindow st.shuntsamples st.sample shuntRaw
    voltsamples := updatedWindow st.voltsamples st.sample vinRaw
    volthighgainsamples := updatedWindow st.volthighgainsamples st.sample highRaw
    sample := st.sample + 1
    amps := ampsAfter st shuntRaw
    highgain := highgainAfter st vinRaw
    volts := voltsAfter st vinRaw highRaw
    watts := wattsAfter st shuntRaw vinRaw highRaw
    fan := fanCommand (wattsAfter st shuntRaw vinRaw highRaw) }

/- checkstate (src/openebdmini.c lines 316-375): measurement followed by
the switch on om.  In OPMODE_ON, volts < lvc enters OPMODE_LVC and
forces loadduty to 1025 (turnoffload, lines 193-196); otherwise the
bang-bang adjustment runs.  Other modes leave om and loadduty alone. -/
def checkstate (st : MState) (shuntRaw vinRaw highRaw : Nat) : MState :=
  let st1 := measuredState st shuntRaw vinRaw highRaw
  match st1.om with
  | .OPMODE_ON =>
    if st1.volts < st1.lvc then
      { st1 with om := .OPMODE_LVC, loadduty := 1025 }
    else
      { st1 with loadduty := regulatorAdjust st1.amps st1.targetamps st1.loadduty }
  | _ => st1

/- checkbuttons (src/openebdmini.c lines 434-462): start button (PD3)
then mode button (PD7), both active low; a pressed flag models the
corresponding port bit being 0. -/
def checkbuttons (st : MState) (startPressed modePressed : Bool) : MState :=
  let st1 :=
    if startPressed then
      match st.om with
      | .OPMODE_OFF => { st with om := .OPMODE_ON }
      | .OPMODE_ON => { st with om := .OPMODE_OFF, loadduty := 1025 }
      | _ => st
    else st
  if modePressed then
    match st1.om with
    | .OPMODE_OFF => { st1 with dm := if st1.dm + 1 = 4 then 0 else st1.dm + 1 }
    | .OPMODE_LVC => { st1 with om := .OPMODE_OFF }
    | _ => st1
  else st1

/- One iteration of the main loop (src/openebdmini.c lines 526-531) as a
state transformer: sendstate and updatedisplay read but never write any
of the modelled state, so the state change of an iteration is
checkstate followed by checkbuttons. -/
def loopIteration (st : MState) (shuntRaw vinRaw highRaw : Nat)
    (startPressed modePressed : Bool) : MState :=
  checkbuttons (checkstate st shuntRaw vinRaw highRaw) startPressed modePressed

/- split (src/openebdmini.c lines 280-294): fills a digits-long buffer,
least significant digit at the highest index, remaining low indices
zero-filled.  The returned list is buffer[0], ..., buffer[digits-1]. -/
def split (value : Nat) : Nat → List Nat
  | 0 => []
  | d + 1 =>
    let tmp := value % 10
    if value - tmp = 0 then
      List.replicate d 0 ++ [tmp]
    else
      split ((value - tmp) / 10) d ++ [tmp]

/- splitandprintvalue (src/openebdmini.c lines 381-388): the six
characters written to the uart, digit value + 0x30 each. -/
def splitandprintvalue (value : Nat) : List Char :=
  (split value 6).map (fun d => Char.ofNat (d + 0x30))

/- Mode strings of sendstate (src/openebdmini.c lines 392-405). -/
def modeString : operationmode → List Char
  | .OPMODE_OFF => ['o', 'f', 'f']
  | .OPMODE_SET => ['s', 'e', 't']
  | .OPMODE_ON => ['o', 'n']
  | .OPMODE_LVC => ['l', 'v', 'c']

/- sendstate (src/openebdmini.c lines 390-432): the full emitted line as
a character list. -/
def sendstate (st : MState) : List Char :=
  modeString st.om ++ [','] ++
  splitandprintvalue st.volts ++ [','] ++
  splitandprintvalue st.amps ++ [','] ++
  splitandprintvalue st.watts ++ [','] ++
  splitandprintvalue st.targetamps ++ [','] ++
  splitandprintvalue st.lvc ++ [','] ++
  splitandprintvalue st.loadduty ++ ['\r', '\n']

/- Zero-padded six-character decimal rendering as the spec words it:
digit i is the coefficient of 10^(5-i), most significant first, filled
with the digit 0 up to width 6.  Used to compare the split-based encoder
against the specified format. -/
def specRender6 (v : Nat) : List Char :=
  [Char.ofNat (v / 100000 % 10 + 0x30), Char.ofNat (v / 10000 % 10 + 0x30),
   Char.ofNat (v / 1000 % 10 + 0x30), Char.ofNat (v / 100 % 10 + 0x30),
   Char.ofNat (v / 10 % 10 + 0x30), Char.ofNat (v % 10 + 0x30)]

/- Helper for the split correctness proof: the zero-padded digit list,
defined by peeling the least significant digit. -/
def padDigits : Nat → Nat → List Nat
  | _, 0 => []
  | v, d + 1 => padDigits (v / 10) d ++ [v % 10]

/- The duty sequence of the regulator when it runs every iteration from
the initial duty 800 (src/openebdmini.c line 157) against a sequence of
measured and target currents. -/
def dutyIter (aSeq tSeq : Nat → Nat) : Nat → Nat
  | 0 => 800
  | n + 1 => regulatorAdjust (aSeq n) (tSeq n) (dutyIter aSeq tSeq n)

/- The startup state: the initial values of the globals
(src/openebdmini.c lines 143-157, 311-314) with the fan output on
(main calls turnonfan before the loop, line 524). -/
def initState : MState where
  om := .OPMODE_OFF
  dm := 0
  highgain := false
  lvc := 2000
  targetamps := 1000
  volts := 0
  amps := 0
  amphours := 0
  watts := 0
  loadduty := 800
  shuntsamples := fun _ => 0
  voltsamples := fun _ => 0
  volthighgainsamples := fun _ => 0
  sample := 0
  fan := true

/- Helper lemmas about checkstate. -/

lemma measured_om (st : MState) (s v h : Nat) :
    (measuredState st s v h).om = st.om := rfl

lemma checkstate_of_on (st : MState) (s v h : Nat) (hOm : st.om = .OPMODE_ON) :
    checkstate st s v h =
      if voltsAfter st v h < st.lvc then
        { measuredState st s v h with om := .OPMODE_LVC, loadduty := 1025 }
      else
        { measuredState st s v h with
          loadduty := regulatorAdjust (ampsAfter st s) st.targetamps st.loadduty } := by
  obtain ⟨om, dm, hg, lvc, ta, vo, am, ah, wa, ld, ss, vs, vh, sp, fn⟩ := st
  simp only at hOm
  subst hOm
  rfl

lemma checkstate_of_not_on (st : MState) (s v h : Nat)
    (hOm : st.om ≠ .OPMODE_ON) :
    checkstate st s v h = measuredState st s v h := by
  obtain ⟨om, dm, hg, lvc, ta, vo, am, ah, wa, ld, ss, vs, vh, sp, fn⟩ := st
  cases om
  · rfl
  · rfl
  · exact absurd rfl hOm
  · rfl

lemma checkstate_volts (st : MState) (s v h : Nat) :
    (checkstate st s v h).volts = voltsAfter st v h := by
  by_cases hOm : st.om = .OPMODE_ON
  · rw [checkstate_of_on st s v h hOm]
    split <;> rfl
  · rw [checkstate_of_not_on st s v h hOm]
    rfl

lemma checkstate_lvc (st : MState) (s v h : Nat) :
    (checkstate st s v h).lvc = st.lvc := by
  by_cases hOm : st.om = .OPMODE_ON
  · rw [checkstate_of_on st s v h hOm]
    split <;> rfl
  · rw [checkstate_of_not_on st s v h hOm]
    rfl

lemma checkstate_amps (st : MState) (s v h : Nat) :
    (checkstate st s v h).amps = ampsAfter st s := by
  by_cases hOm : st.om = .OPMODE_ON
  · rw [checkstate_of_on st s v h hOm]
    split <;> rfl
  · rw [checkstate_of_not_on st s v h hOm]
    rfl

lemma checkstate_watts (st : MState) (s v h : Nat) :
    (checkstate st s v h).watts = wattsAfter st s v h := by
  by_cases hOm : st.om = .OPMODE_ON
  · rw [checkstate_of_on st s v h hOm]
    split <;> rfl
  · rw [checkstate_of_not_on st s v h hOm]
    rfl

lemma checkstate_fan (st : MState) (s v h : Nat) :
    (checkstate st s v h).fan = fanCommand (wattsAfter st s v h) := by
  by_cases hOm : st.om = .OPMODE_ON
  · rw [checkstate_of_on st s v h hOm]
    split <;> rfl
  · rw [checkstate_of_not_on st s v h hOm]
    rfl

lemma checkstate_highgain (st : MState) (s v h : Nat) :
    (checkstate st s v h).highgain = highgainAfter st v := by
  by_cases hOm : st.om = .OPMODE_ON
  · rw [checkstate_of_on st s v h hOm]
    split <;> rfl
  · rw [checkstate_of_not_on st s v h hOm]
    rfl

/-- Claim C1: in mode ON, when the volts computed in the same iteration
is strictly below the low-voltage cutoff, checkstate enters OPMODE_LVC
and forces loadduty to the disabled sentinel 1025; the bang-bang
adjustment is not applied (the resulting duty is exactly the sentinel,
whatever amps, targetamps and the previous duty were). -/
theorem claim1_lvc_precedence (st : MState) (s v h : Nat)
    (hOm : st.om = .OPMODE_ON)
    (hV : (checkstate st s v h).volts < st.lvc) :
    (checkstate st s v h).om = .OPMODE_LVC ∧
    (checkstate st s v h).loadduty = 1025 := by
  rw [checkstate_volts] at hV
  rw [checkstate_of_on st s v h hOm, if_pos hV]
  exact ⟨rfl, rfl⟩

def stC1 : MState :=
  { initState with om := .OPMODE_ON, volthighgainsamples := fun _ => 10 }

/-- Witness for claim C1: a concrete ON state whose computed volts
(45 mV, from the high-gain path) is below the 2000 mV cutoff. -/
theorem claim1_witness :
    (checkstate stC1 0 0 10).om = .OPMODE_LVC ∧
    (checkstate stC1 0 0 10).loadduty = 1025 :=
  claim1_lvc_precedence stC1 0 0 10 rfl (by decide)

/-- Claim C2 counterexample: the transition ON to LVC is listed in the
automatic transition table of the spec, but state_changeopmode rejects it:
it returns false and leaves the mode at ON. -/
theorem claim2_counterexample :
    state_changeopmode .OPMODE_ON .OPMODE_LVC = (false, .OPMODE_ON) := by
  decide

/-- Claim C2 (amended): state_changeopmode changes the mode and returns
true exactly for the three user transitions OFF to ON, ON to OFF and
LVC to OFF; every other pair (including the automatic ON to LVC, and
OFF to LVC, LVC to ON, SET to LVC) returns false and leaves the mode
unchanged. -/
theorem claim2_transition_table :
    ∀ a b : operationmode,
      (state_changeopmode a b).1 =
        decide ((a = .OPMODE_OFF ∧ b = .OPMODE_ON) ∨
                (a = .OPMODE_ON ∧ b = .OPMODE_OFF) ∨
                (a = .OPMODE_LVC ∧ b = .OPMODE_OFF)) ∧
      (state_changeopmode a b).2 =
        (if (state_changeopmode a b).1 then b else a) := by
  intro a b
  cases a <;> cases b <;> decide

/-- Claim C3: in mode ON with volts at or above the cutoff, one
checkstate iteration sets loadduty to the bang-bang adjustment of the
freshly computed amps against targetamps; the adjustment decrements by
exactly 1 when amps < targetamps and duty > 300, increments by exactly 1
when amps > targetamps and duty < 1000, and leaves duty unchanged at
equality or at a clamp bound; and with measured amps held below target
every iteration from the initial duty 800, the duty is exactly
max 300 (800 - n) after n iterations: it falls by 1 per iteration until
reaching 300 and stays at 300 forever. -/
theorem claim3_regulation :
    (∀ (st : MState) (s v h : Nat), st.om = .OPMODE_ON →
      ¬ ((checkstate st s v h).volts < st.lvc) →
      (checkstate st s v h).loadduty =
        regulatorAdjust ((checkstate st s v h).amps) st.targetamps st.loadduty) ∧
    (∀ a t d, a < t → 300 < d → regulatorAdjust a t d = d - 1) ∧
    (∀ a t d, t < a → d < 1000 → regulatorAdjust a t d = d + 1) ∧
    (∀ a t d, a = t ∨ (a < t ∧ d ≤ 300) ∨ (t < a ∧ 1000 ≤ d) →
      regulatorAdjust a t d = d) ∧
    (∀ (aSeq tSeq : Nat → Nat), (∀ k, aSeq k < tSeq k) →
      ∀ n, dutyIter aSeq tSeq n = max 300 (800 - n)) := by
  refine ⟨?_, ?_, ?_, ?_, ?_⟩
  · intro st s v h hOm hV
    rw [checkstate_volts] at hV
    rw [checkstate_amps, checkstate_of_on st s v h hOm, if_neg hV]
  · intro a t d h1 h2
    unfold regulatorAdjust
    rw [if_pos h1, if_pos h2]
  · intro a t d h1 h2
    unfold regulatorAdjust
    rw [if_neg (by omega), if_pos h1, if_pos h2]
  · intro a t d hcase
    unfold regulatorAdjust
    rcases hcase with h | ⟨h1, h2⟩ | ⟨h1, h2⟩
    · rw [if_neg (by omega), if_neg (by omega)]
    · rw [if_pos h1, if_neg (by omega)]
    · rw [if_neg (by omega), if_pos h1, if_neg (by omega)]
  · intro aSeq tSeq hlt n
    induction n with
    | zero => rfl
    | succ n ih =>
      show regulatorAdjust (aSeq n) (tSeq n) (dutyIter aSeq tSeq n) = _
      rw [ih]
      unfold regulatorAdjust
      rw [if_pos (hlt n)]
      split <;> omega

def stC3 : MState := { initState with om := .OPMODE_ON }

/-- Witness for claim C3: every hypothesis of claim3_regulation
discharged at concrete inputs (an ON state whose computed volts 65516 is
not below the 2000 mV cutoff; amps 0 below target 1000 at duty 800;
amps 5 above target 2 at duty 999; amps 1 below target 2 at the clamp
300; constant below-target drive for 501 iterations). -/
theorem claim3_witness :
    (checkstate stC3 0 0 0).loadduty =
      regulatorAdjust ((checkstate stC3 0 0 0).amps) stC3.targetamps stC3.loadduty ∧
    regulatorAdjust 0 1000 800 = 800 - 1 ∧
    regulatorAdjust 5 2 999 = 999 + 1 ∧
    regulatorAdjust 1 2 300 = 300 ∧
    dutyIter (fun _ => 0) (fun _ => 1000) 501 = max 300 (800 - 501) :=
  ⟨claim3_regulation.1 stC3 0 0 0 rfl (by decide),
   claim3_regulation.2.1 0 1000 800 (by decide) (by decide),
   claim3_regulation.2.2.1 5 2 999 (by decide) (by decide),
   claim3_regulation.2.2.2.1 1 2 300 (Or.inr (Or.inl ⟨by decide, by decide⟩)),
   claim3_regulation.2.2.2.2 (fun _ => 0) (fun _ => 1000) (fun _ => Nat.succ_pos 999) 501⟩

/- Helper lemmas about checkbuttons. -/

lemma checkbuttons_duty_lvc (st : MState) (b1 b2 : Bool)
    (h : st.om = .OPMODE_LVC) :
    (checkbuttons st b1 b2).loadduty = st.loadduty := by
  obtain ⟨om, dm, hg, lvc, ta, vo, am, ah, wa, ld, ss, vs, vh, sp, fn⟩ := st
  simp only at h
  subst h
  cases b1 <;> cases b2 <;> rfl

lemma checkbuttons_exit_on (st : MState) (b1 b2 : Bool)
    (hExit : (checkbuttons st b1 b2).om ≠ .OPMODE_ON)
    (h : st.om = .OPMODE_ON) :
    (checkbuttons st b1 b2).loadduty = 1025 := by
  obtain ⟨om, dm, hg, lvc, ta, vo, am, ah, wa, ld, ss, vs, vh, sp, fn⟩ := st
  simp only at h
  subst h
  cases b1 <;> cases b2
  · exact absurd rfl hExit
  · exact absurd rfl hExit
  · rfl
  · rfl

/-- Claim C4: in every loop iteration that starts in mode ON and ends in
a mode other than ON (leaving via a start press to OFF, or via the
automatic cutoff to LVC, possibly followed by a mode press), the
resulting loadduty is the disabled sentinel 1025. -/
theorem claim4_duty_disabled_on_exit (st : MState) (s v h : Nat)
    (b1 b2 : Bool) (hOm : st.om = .OPMODE_ON)
    (hExit : (loopIteration st s v h b1 b2).om ≠ .OPMODE_ON) :
    (loopIteration st s v h b1 b2).loadduty = 1025 := by
  unfold loopIteration at hExit ⊢
  by_cases hc : voltsAfter st v h < st.lvc
  · rw [checkstate_of_on st s v h hOm, if_pos hc]
    exact (checkbuttons_duty_lvc _ b1 b2 rfl).trans rfl
  · rw [checkstate_of_on st s v h hOm, if_neg hc] at hExit ⊢
    exact checkbuttons_exit_on _ b1 b2 hExit hOm

/-- Witness for claim C4: from a concrete ON state with volts staying
above the cutoff, a start press exits to OFF and the duty is 1025. -/
theorem claim4_witness :
    (loopIteration { initState with om := .OPMODE_ON } 0 0 0 true false).loadduty
      = 1025 :=
  claim4_duty_disabled_on_exit { initState with om := .OPMODE_ON } 0 0 0
    true false rfl (by decide)

/-- Claim C5: the measurement engine sets highgain exactly when the
low-gain voltage is at most 6000 (the selector is always the low-gain
value, never the high-gain one), and reports the high-gain voltage when
highgain holds and the low-gain voltage otherwise; for smoothed readings
in the 10-bit range the low-gain voltage is the mean times 20, and the
selection at low-gain value 6000 picks the high-gain reading while 6001
picks the low-gain reading. -/
theorem claim5_gain_selection :
    (∀ (st : MState) (s v h : Nat),
      (checkstate st s v h).highgain =
        decide (lowgainvoltsOf (voltMeanAfter st v) ≤ 6000) ∧
      (checkstate st s v h).volts =
        voltsSelect (lowgainvoltsOf (voltMeanAfter st v))
          (highGainVoltsOf (highMeanAfter st h))) ∧
    (∀ m, m ≤ 1023 → lowgainvoltsOf m = m * 20) ∧
    (∀ x, voltsSelect 6000 x = x) ∧
    (∀ x, voltsSelect 6001 x = 6001) := by
  refine ⟨?_, ?_, ?_, ?_⟩
  · intro st s v h
    exact ⟨checkstate_highgain st s v h, checkstate_volts st s v h⟩
  · intro m hm
    unfold lowgainvoltsOf
    exact Nat.mod_eq_of_lt (by omega)
  · intro x
    rfl
  · intro x
    rfl

/-- Witness for claim C5: the 10-bit bound discharged at the boundary
mean 300, whose low-gain voltage is exactly 6000. -/
theorem claim5_witness : lowgainvoltsOf 300 = 300 * 20 :=
  claim5_gain_selection.2.1 300 (by decide)

/- Helper lemmas for the split-based encoder. -/

lemma padDigits_zero : ∀ d, padDigits 0 d = List.replicate d 0 := by
  intro d
  induction d with
  | zero => rfl
  | succ d ih =>
    show padDigits 0 d ++ [0 % 10] = _
    rw [ih, List.replicate_succ']

lemma split_eq_padDigits : ∀ d v, split v d = padDigits v d := by
  intro d
  induction d with
  | zero => intro v; rfl
  | succ d ih =>
    intro v
    show (if v - v % 10 = 0 then List.replicate d 0 ++ [v % 10]
          else split ((v - v % 10) / 10) d ++ [v % 10]) =
         padDigits (v / 10) d ++ [v % 10]
    by_cases hv : v - v % 10 = 0
    · rw [if_pos hv]
      have h10 : v / 10 = 0 := by omega
      rw [h10, padDigits_zero]
    · rw [if_neg hv]
      have harg : (v - v % 10) / 10 = v / 10 := by omega
      rw [harg, ih]

lemma padDigits_six (v : Nat) :
    padDigits v 6 = [v / 100000 % 10, v / 10000 % 10, v / 1000 % 10,
                     v / 100 % 10, v / 10 % 10, v % 10] := by
  have h : padDigits v 6 =
      [v / 10 / 10 / 10 / 10 / 10 % 10, v / 10 / 10 / 10 / 10 % 10,
       v / 10 / 10 / 10 % 10, v / 10 / 10 % 10, v / 10 % 10, v % 10] := rfl
  rw [h]
  norm_num [Nat.div_div_eq_div_mul]

lemma splitandprint_eq_specRender6 (v : Nat) :
    splitandprintvalue v = specRender6 v := by
  unfold splitandprintvalue specRender6
  rw [split_eq_padDigits, padDigits_six]
  rfl

/-- Claim C6: sendstate emits, for every state, exactly the line
mode,volts,amps,watts,targetamps,lvc,loadduty terminated by CRLF with
every numeric field rendered as its 6-character zero-padded decimal
digits, and on the idle startup state the line is exactly
off,000000,000000,000000,001000,002000,000800 followed by CRLF. -/
theorem claim6_telemetry_format :
    (∀ st : MState,
      sendstate st =
        modeString st.om ++ [','] ++
        specRender6 st.volts ++ [','] ++
        specRender6 st.amps ++ [','] ++
        specRender6 st.watts ++ [','] ++
        specRender6 st.targetamps ++ [','] ++
        specRender6 st.lvc ++ [','] ++
        specRender6 st.loadduty ++ ['\r', '\n']) ∧
    sendstate initState =
      ("off,000000,000000,000000,001000,002000,000800\r\n").toList := by
  constructor
  · intro st
    unfold sendstate
    rw [splitandprint_eq_specRender6, splitandprint_eq_specRender6,
        splitandprint_eq_specRender6, splitandprint_eq_specRender6,
        splitandprint_eq_specRender6, splitandprint_eq_specRender6]
  · decide

/- Helper lemmas for the sampler window. -/

lemma feedConst_cursor (c : Nat) (s : (Fin 12 → Nat) × Fin 12) :
    ∀ n : Nat, (feedConst c s n).2 = s.2 + (n : Fin 12) := by
  intro n
  induction n with
  | zero => simp [feedConst]
  | succ n ih =>
    show (feedConst c s n).2 + 1 = _
    rw [ih]
    push_cast
    ring

lemma feedConst_covered (c : Nat) (s : (Fin 12 → Nat) × Fin 12) :
    ∀ n : Nat, ∀ i : Fin 12, (∃ k : Nat, k < n ∧ i = s.2 + (k : Fin 12)) →
      (feedConst c s n).1 i = c % 65536 := by
  intro n
  induction n with
  | zero =>
    intro i hi
    obtain ⟨k, hk, _⟩ := hi
    omega
  | succ n ih =>
    intro i hi
    obtain ⟨k, hk, hik⟩ := hi
    show Function.update (feedConst c s n).1 (feedConst c s n).2 (c % 65536) i
        = c % 65536
    by_cases hip : i = (feedConst c s n).2
    · rw [hip, Function.update_same]
    · rw [Function.update_noteq hip]
      apply ih
      refine ⟨k, ?_, hik⟩
      rcases Nat.lt_or_ge k n with hlt | hge
      · exact hlt
      · exfalso
        have hkn : k = n := by omega
        apply hip
        rw [hik, feedConst_cursor, hkn]
  
lemma cursor_cover (p i : Fin 12) :
    ∃ k : Nat, k < 12 ∧ i = p + (k : Fin 12) := by
  refine ⟨(i - p).val, (i - p).isLt, ?_⟩
  rw [Fin.cast_val_eq_self]
  ring

/-- Claim C7: one sampler step overwrites exactly the slot at the shared
cursor with the (16-bit) raw code and advances the cursor by one modulo
12, the reading is the truncating mean of the 12 slots; and after 12
consecutive samples of the same raw code c (in the 16-bit store range),
the smoothed reading equals c exactly, from any starting window and any
cursor position. -/
theorem claim7_smoothing_convergence :
    (∀ (w : Fin 12 → Nat) (p : Fin 12) (raw : Nat),
      (samplerStep w p raw).1 p = raw % 65536 ∧
      (∀ i, i ≠ p → (samplerStep w p raw).1 i = w i) ∧
      (samplerStep w p raw).2 = p + 1) ∧
    (∀ (w : Fin 12 → Nat) (p : Fin 12) (c : Nat), c < 65536 →
      sumSamples (feedConst c (w, p) 12).1 / 12 = c) := by
  constructor
  · intro w p raw
    refine ⟨?_, ?_, rfl⟩
    · show Function.update w p (raw % 65536) p = raw % 65536
      rw [Function.update_same]
    · intro i hip
      show Function.update w p (raw % 65536) i = w i
      rw [Function.update_noteq hip]
  · intro w p c hc
    have hall : ∀ i, (feedConst c (w, p) 12).1 i = c % 65536 := by
      intro i
      exact feedConst_covered c (w, p) 12 i (cursor_cover p i)
    have hsum : sumSamples (feedConst c (w, p) 12).1 = 12 * (c % 65536) := by
      simp only [sumSamples, hall]
      ring
    rw [hsum, Nat.mul_div_cancel_left _ (by norm_num), Nat.mod_eq_of_lt hc]

/-- Witness for claim C7: slot behavior at cursor 3 with raw code 7 over
the all-5 window (the untouched slot 1 keeps its value), and exact
smoothing after 12 constant samples of 9 from the all-0 window at
cursor 3. -/
theorem claim7_witness :
    ((samplerStep (fun _ => 5) 3 7).1 1 = 5) ∧
    (sumSamples (feedConst 9 ((fun _ => 0), 3) 12).1 / 12 = 9) :=
  ⟨(claim7_smoothing_convergence.1 (fun _ => 5) 3 7).2.1 1 (by decide),
   claim7_smoothing_convergence.2 (fun _ => 0) 3 9 (by decide)⟩

/-- Claim C8: every iteration recomputes the fan command from the fresh
watts value alone: the fan is on exactly when watts is strictly greater
than 2500 (2500 gives off, 2501 gives on), and the result does not
depend on the previous fan state. -/
theorem claim8_fan_threshold :
    (∀ (st : MState) (s v h : Nat),
      (checkstate st s v h).fan = fanCommand (wattsAfter st s v h) ∧
      (checkstate st s v h).watts = wattsAfter st s v h) ∧
    (∀ w, fanCommand w = decide (2500 < w)) ∧
    fanCommand 2500 = false ∧
    fanCommand 2501 = true ∧
    (∀ (st : MState) (s v h : Nat) (b : Bool),
      (checkstate { st with fan := b } s v h).fan = (checkstate st s v h).fan) := by
  refine ⟨?_, fun w => rfl, rfl, rfl, ?_⟩
  · intro st s v h
    exact ⟨checkstate_fan st s v h, checkstate_watts st s v h⟩
  · intro st s v h b
    rw [checkstate_fan, checkstate_fan]
    rfl

/-- Claim C9: the high-gain voltage is computed in unsigned arithmetic,
so whenever the scaled quotient is below the offset 20 the subtraction
wraps: the 16-bit result is quotient + 65536 - 20.  With all 12
high-gain slots zero (and a fresh zero code) while the low-gain volts is
at most 6000, the reported volts is 65516; at the startup state the
volts computed by the first iteration is 65516, which is not below the
low-voltage cutoff of the program (lvc stays 2000, so the cutoff can never
fire on this wrapped value). -/
theorem claim9_highgain_wrap :
    (∀ m : Nat, m * 65 / 10 < 20 →
      highGainVoltsOf m = m * 65 / 10 + 65536 - 20) ∧
    highGainVoltsOf 0 = 65516 ∧
    (∀ (st : MState) (s v : Nat),
      (∀ i, st.volthighgainsamples i = 0) →
      lowgainvoltsAfter st v ≤ 6000 →
      (checkstate st s v 0).volts = 65516) ∧
    initState.lvc = 2000 ∧
    (checkstate initState 0 0 0).volts = 65516 ∧
    ¬ ((checkstate initState 0 0 0).volts < (checkstate initState 0 0 0).lvc) := by
  refine ⟨?_, by decide, ?_, rfl, by decide, by decide⟩
  · intro m hm
    unfold highGainVoltsOf
    generalize m * 65 / 10 = q at hm ⊢
    omega
  · intro st s v h0 hlow
    rw [checkstate_volts]
    have hwin : ∀ i, updatedWindow st.volthighgainsamples st.sample 0 i = 0 := by
      intro i
      unfold updatedWindow
      by_cases hip : i = st.sample
      · rw [hip, Function.update_same]
      · rw [Function.update_noteq hip]
        exact h0 i
    have hmean : highMeanAfter st 0 = 0 := by
      unfold highMeanAfter
      simp only [sumSamples, hwin]
    show voltsSelect (lowgainvoltsAfter st v) (highGainVoltsOf (highMeanAfter st 0))
        = 65516
    rw [hmean]
    unfold voltsSelect
    rw [if_pos hlow]
    decide

/-- Witness for claim C9: the wrap formula discharged at mean 0 (scaled
quotient 0 below the offset 20), and the zero-window conclusion
discharged at the startup state. -/
theorem claim9_witness :
    highGainVoltsOf 0 = 0 * 65 / 10 + 65536 - 20 ∧
    (checkstate initState 5 0 0).volts = 65516 :=
  ⟨claim9_highgain_wrap.1 0 (by decide),
   claim9_highgain_wrap.2.2.1 initState 5 0 (fun i => rfl) (by decide)⟩

/-- Claim C10 counterexample: the concrete arithmetic of the claim is wrong:
amps 3478 and volts 20460 give the exact quotient 71159 (not 71167) and
the stored 16-bit watts 5623 (not 5631). -/
theorem claim10_counterexample :
    wattsOf 3478 20460 ≠ 5631 ∧
    wattsOf 3478 20460 = 5623 ∧
    3478 * 20460 / 1000 = 71159 := by
  refine ⟨by decide, by decide, by decide⟩

def stC10 : MState :=
  { initState with
    shuntsamples := fun _ => 971
    voltsamples := fun _ => 1023 }

/-- Claim C10 (amended): watts is the 32-bit quotient amps * volts /
1000 narrowed modulo 2^16; the quotient can exceed 65535 from 10-bit
codes (amps 3478 and volts 20460 give quotient 71159, stored as 5623),
and the fan comparison uses the wrapped value: with shunt mean 971 and
low-gain mean 1023 the computed amps is 3301 and volts 20460, the true
quotient 67538 exceeds the 2500 mW threshold, yet the stored watts is
2002 and the fan is commanded off. -/
theorem claim10_watts_wrap :
    (∀ a v : Nat, wattsOf a v = a * v / 1000 % 65536) ∧
    wattsOf 3478 20460 = 5623 ∧
    (checkstate stC10 971 1023 0).amps = 3301 ∧
    (checkstate stC10 971 1023 0).volts = 20460 ∧
    (checkstate stC10 971 1023 0).amps * (checkstate stC10 971 1023 0).volts / 1000
      = 67538 ∧
    2500 < 67538 ∧
    (checkstate stC10 971 1023 0).watts = 2002 ∧
    (checkstate stC10 971 1023 0).fan = false := by
  exact ⟨fun a v => rfl, by decide, by decide, by decide, by decide,
    by decide, by decide, by decide⟩
